import Mathlib

/-!
# ImmoAlert — verification of the matching-and-conversation engine

Shallow embedding of the core services of the ImmoAlert repository
(`matching.service.ts`, `ai-classifier.service.ts`, `conversation.service.ts`,
`facebook-scraper.service.ts`) together with theorems settling the frozen
claims about the natural-language specification.

Modelling conventions:
* JavaScript numbers used as integers are modelled as `Nat`; the only
  fractional arithmetic (the price-decay score) is modelled exactly over `ℚ`.
* JavaScript `null`/`undefined` for scalar fields is `Option`; JS truthiness
  on numbers (`0`, `null`, `undefined` are falsy) is the `truthy` predicate.
* Database stores are plain lists; Prisma queries are `List.find?`/`filter`;
  Prisma `create` appends; `update` maps over the list.  Prisma's documented
  semantics that an `undefined` value in an `update` payload leaves the
  column unchanged is modelled by `Option.orElse` (`<|>`) in `saveCriteria`.
* External collaborators (WhatsApp delivery, OpenAI message generation,
  clock, extraction) are oracles packaged in environment structures, so every
  embedded operation is a deterministic total function.
-/

namespace ImmoAlert

/-! ## JS-semantics helpers -/

/-- JS truthiness of a nullable number: `null`/`undefined` and `0` are falsy. -/
def truthy : Option Nat → Bool
  | none => false
  | some n => n != 0

/-- JS truthiness of a nullable string: `null`/`undefined` and `""` are falsy. -/
def truthyStr : Option String → Bool
  | none => false
  | some s => s != ""

/-- `needle.isPrefixOf hay`-based substring test: JS `String.includes`. -/
def listIncludes (needle : List Char) : List Char → Bool
  | [] => needle.isEmpty
  | c :: cs => needle.isPrefixOf (c :: cs) || listIncludes needle cs

/-- JS `hay.includes(needle)`. -/
def jsIncludes (hay needle : String) : Bool :=
  listIncludes needle.toList hay.toList

/-- JS `s.toLowerCase()` (ASCII case mapping; the inputs at issue contain no
letters whose Unicode lowercasing differs from ASCII lowercasing). -/
def jsLower (s : String) : String := String.mk (s.toList.map Char.toLower)

/-- JS `s.trim()` (whitespace at both ends; ASCII whitespace suffices for the
inputs at issue). -/
def jsTrim (s : String) : String :=
  String.mk (((s.toList.dropWhile Char.isWhitespace).reverse.dropWhile
    Char.isWhitespace).reverse)

/-- JS `message.toLowerCase().trim()` as used throughout the conversation
service. -/
def lowerTrim (s : String) : String := jsTrim (jsLower s)

/-- Value of a digit character. -/
def digitVal (c : Char) : Nat := c.toNat - '0'.toNat

/-- `parseInt` on a string of decimal digits. -/
def digitsToNat (cs : List Char) : Nat :=
  cs.foldl (fun acc c => acc * 10 + digitVal c) 0

/-- JS `message.split(/[,;/\-]/)`: split at every occurrence of one of the
separator characters, keeping empty segments. -/
def jsSplitAux (seps : List Char) : List Char → List Char → List String
  | acc, [] => [String.mk acc.reverse]
  | acc, c :: cs =>
    if seps.contains c then
      String.mk acc.reverse :: jsSplitAux seps [] cs
    else
      jsSplitAux seps (c :: acc) cs

/-- JS `s.split(/[,;/\-]/)`. -/
def jsSplit (s : String) (seps : List Char) : List String :=
  jsSplitAux seps [] s.toList

/-- One scanning step of the global regex `/(\d+)[^\d]*(\d+)?/g`:
from the first digit onward, a maximal digit run, then a maximal non-digit
run, then an optional second maximal digit run form one match.  Fuel-based so
that the definition reduces by `decide`/`rfl`; `fuel ≥ length` suffices. -/
def jsPriceMatchesAux : Nat → List Char → List String
  | 0, _ => []
  | _, [] => []
  | fuel + 1, c :: cs =>
    if c.isDigit then
      let r1 := (c :: cs).takeWhile Char.isDigit
      let rest1 := (c :: cs).dropWhile Char.isDigit
      let sep := rest1.takeWhile (fun d => !d.isDigit)
      let rest2 := rest1.dropWhile (fun d => !d.isDigit)
      let r2 := rest2.takeWhile Char.isDigit
      let rest3 := rest2.dropWhile Char.isDigit
      String.mk (r1 ++ (if r2.isEmpty then sep else sep ++ r2)) ::
        jsPriceMatchesAux fuel (if r2.isEmpty then rest2 else rest3)
    else
      jsPriceMatchesAux fuel cs

/-- JS `message.match(/(\d+)[^\d]*(\d+)?/g)`, the list of matched substrings
(`[]` models the JS `null` result when there is no match). -/
def jsPriceMatches (s : String) : List String :=
  jsPriceMatchesAux (s.toList.length + 1) s.toList

/-- JS `message.match(/(\d+)/)` followed by `parseInt(m[1])`: the first
maximal digit run of the string, if any. -/
def jsFirstNumber (s : String) : Option Nat :=
  match s.toList.dropWhile (fun c => !c.isDigit) with
  | [] => none
  | c :: cs => some (digitsToNat ((c :: cs).takeWhile Char.isDigit))

/-- JS `Math.min(...l)` for a non-empty list (`0` is a junk value for the
unreachable empty case). -/
def jsMin : List Nat → Nat
  | [] => 0
  | x :: xs => xs.foldl Nat.min x

/-- JS `Math.max(...l)` for a non-empty list. -/
def jsMax : List Nat → Nat
  | [] => 0
  | x :: xs => xs.foldl Nat.max x

/-- Template-literal rendering of a nullable number (`null` prints as
`"null"`). -/
def jsOptNumToString : Option Nat → String
  | some n => toString n
  | none => "null"

/-! ## Data model (Prisma schema records used by the core) -/

inductive PropertyType where
  | HOUSE
  | APARTMENT
  | BOTH
deriving DecidableEq, Repr

inductive ConversationState where
  | IDLE
  | COLLECTING_CRITERIA
  | CONFIRMING
  | ACTIVE
  | PAUSED
deriving DecidableEq, Repr

inductive Direction where
  | INCOMING
  | OUTGOING
deriving DecidableEq, Repr

structure UserRec where
  id : String
  whatsappNumber : String
  conversationState : ConversationState
  isActive : Bool
  lastInteraction : Option Nat
deriving DecidableEq, Repr

structure PropertyCriteria where
  userId : String
  propertyType : PropertyType
  minPrice : Option Nat
  maxPrice : Option Nat
  locations : List String
  minRooms : Option Nat
  maxRooms : Option Nat
  minSurface : Option Nat
  maxSurface : Option Nat
deriving DecidableEq, Repr

structure ScrapedListing where
  id : String
  postId : String
  originalText : String
  title : Option String
  price : Option Nat
  location : Option String
  surface : Option Nat
  rooms : Option Nat
  propertyType : Option PropertyType
  furnished : Option Bool
  images : List String
  isValid : Bool
  aiEnriched : Bool
  confidenceScore : Option ℚ
  sentToUsers : List String
deriving DecidableEq, Repr

/-! ## Scoring Engine (`MatchingService.calculateMatchScore`) -/

structure ScoreBreakdown where
  total : ℚ
  price : ℚ
  location : ℚ
  surface : ℚ
  rooms : ℚ
  type : ℚ
deriving DecidableEq, Repr

/-- Price dimension (30%).  Mirrors the JS exactly, truthiness included:
`if (listing.price && criteria.minPrice && criteria.maxPrice) {...}
else if (!criteria.minPrice && !criteria.maxPrice) { 30 }`.  The decayed
partial score `Math.max(0, 30 - percentage*100)` is modelled with exact
rational arithmetic. -/
def scorePrice (listing : ScrapedListing) (criteria : PropertyCriteria) : ℚ :=
  if truthy listing.price && truthy criteria.minPrice && truthy criteria.maxPrice then
    let p := listing.price.getD 0
    let lo := criteria.minPrice.getD 0
    let hi := criteria.maxPrice.getD 0
    if lo ≤ p && p ≤ hi then 30
    else
      let diff : ℚ := min |(p : ℚ) - (lo : ℚ)| |(p : ℚ) - (hi : ℚ)|
      let percentage : ℚ := diff / (p : ℚ)
      max 0 (30 - percentage * 100)
  else if !truthy criteria.minPrice && !truthy criteria.maxPrice then 30
  else 0

/-- Location dimension (25%): case-insensitive substring containment of any
criteria location in the listing location. -/
def scoreLoc (listing : ScrapedListing) (criteria : PropertyCriteria) : ℚ :=
  if truthyStr listing.location && decide (0 < criteria.locations.length) then
    if criteria.locations.any (fun loc =>
        jsIncludes (jsLower (listing.location.getD "")) (jsLower loc)) then 25
    else 0
  else 0

/-- Surface dimension (20%): full credit inside `[min,max]` when both bounds
and the listing surface are truthy; full credit when both bounds are falsy. -/
def scoreSurface (listing : ScrapedListing) (criteria : PropertyCriteria) : ℚ :=
  if truthy listing.surface && truthy criteria.minSurface && truthy criteria.maxSurface then
    if criteria.minSurface.getD 0 ≤ listing.surface.getD 0 &&
        listing.surface.getD 0 ≤ criteria.maxSurface.getD 0 then 20
    else 0
  else if !truthy criteria.minSurface && !truthy criteria.maxSurface then 20
  else 0

/-- Rooms dimension (15%), same shape as surface. -/
def scoreRooms (listing : ScrapedListing) (criteria : PropertyCriteria) : ℚ :=
  if truthy listing.rooms && truthy criteria.minRooms && truthy criteria.maxRooms then
    if criteria.minRooms.getD 0 ≤ listing.rooms.getD 0 &&
        listing.rooms.getD 0 ≤ criteria.maxRooms.getD 0 then 15
    else 0
  else if !truthy criteria.minRooms && !truthy criteria.maxRooms then 15
  else 0

/-- Type dimension (10%). -/
def scoreType (listing : ScrapedListing) (criteria : PropertyCriteria) : ℚ :=
  if listing.propertyType.isSome &&
      (criteria.propertyType == PropertyType.BOTH ||
        listing.propertyType == some criteria.propertyType) then 10
  else 0

/-- `MatchingService.calculateMatchScore`: the five pre-weighted dimension
scores and their sum. -/
def calculateMatchScore (listing : ScrapedListing) (criteria : PropertyCriteria) :
    ScoreBreakdown :=
  let p := scorePrice listing criteria
  let l := scoreLoc listing criteria
  let s := scoreSurface listing criteria
  let r := scoreRooms listing criteria
  let t := scoreType listing criteria
  { total := p + l + s + r + t
    price := p
    location := l
    surface := s
    rooms := r
    type := t }

/-- `MatchingService.generateMatchReasons`: fixed-order human-readable
reasons driven by per-dimension thresholds. -/
def generateMatchReasons (listing : ScrapedListing) (_criteria : PropertyCriteria)
    (score : ScoreBreakdown) : List String :=
  (if 25 ≤ score.price then ["💰 Prix dans votre budget"]
   else if 0 < score.price then ["💰 Prix proche de votre budget"]
   else []) ++
  (if 20 ≤ score.location then ["📍 Localisation recherchée"] else []) ++
  (if 15 ≤ score.surface then
    ["📐 Surface: " ++ jsOptNumToString listing.surface ++ "m²"] else []) ++
  (if 10 ≤ score.rooms then
    ["🚪 " ++ jsOptNumToString listing.rooms ++ " pièces"] else []) ++
  (if 8 ≤ score.type then
    [if listing.propertyType == some PropertyType.HOUSE then "🏠 Maison"
     else "🏢 Appartement"] else [])

/-! ## Match Engine and Notification Dispatcher
(`MatchingService.findMatchesForListing` / `processMatches` / `notifyUser`) -/

structure MatchResult where
  userId : String
  listingId : String
  score : ℚ
  reasons : List String
  shouldNotify : Bool
deriving DecidableEq, Repr

structure MatchRec where
  id : Nat
  userId : String
  listingId : String
  matchScore : ℚ
  matchReasons : List String
  isNotified : Bool
  notifiedAt : Option Nat
  isViewed : Bool
deriving DecidableEq, Repr

structure NotificationRec where
  userId : String
  type : String
  title : String
  message : String
  relatedEntityId : String
  relatedEntityType : String
deriving DecidableEq, Repr

/-- The database slice touched by the matching service, plus the delivery log
of the WhatsApp client.  `nextId` models Prisma's id generation for `Match`
rows. -/
structure MatchingState where
  users : List UserRec
  criteria : List PropertyCriteria
  listings : List ScrapedListing
  matchRows : List MatchRec
  notifications : List NotificationRec
  sentTexts : List (String × String)
  sentImages : List (String × String)
  nextId : Nat
deriving DecidableEq, Repr

/-- External collaborators of the matching service: WhatsApp delivery
outcomes (`textOk`/`imageOk`), the AI message generator (whose internal
fallback never throws, so it is a total oracle), and the clock. -/
structure MatchingEnv where
  textOk : String → Bool
  imageOk : String → String → Bool
  genMessage : ScrapedListing → Option PropertyCriteria → String
  now : Nat

def findCriteriaFor (criteria : List PropertyCriteria) (uid : String) :
    Option PropertyCriteria :=
  criteria.find? (fun c => c.userId == uid)

/-- Stable descending insertion used to model the JS stable
`sort((a, b) => b.score - a.score)`. -/
def insertByScoreDesc (m : MatchResult) : List MatchResult → List MatchResult
  | [] => [m]
  | x :: xs => if m.score ≤ x.score then x :: insertByScoreDesc m xs else m :: x :: xs

def sortByScoreDesc (l : List MatchResult) : List MatchResult :=
  l.foldl (fun acc m => insertByScoreDesc m acc) []

/-- The pure part of `findMatchesForListing`, given the result of the
active-users query. -/
def findMatchesPure (users : List UserRec) (criteria : List PropertyCriteria)
    (listing : ScrapedListing) : List MatchResult :=
  if !listing.isValid || !listing.aiEnriched then []
  else
    sortByScoreDesc ((users.filter (fun u => u.isActive)).filterMap (fun u =>
      match findCriteriaFor criteria u.id with
      | none => none
      | some c =>
        let sc := calculateMatchScore listing c
        if 60 ≤ sc.total then
          some { userId := u.id
                 listingId := listing.id
                 score := sc.total
                 reasons := generateMatchReasons listing c sc
                 shouldNotify := decide (70 ≤ sc.total) }
        else none))

/-- `MatchingService.findMatchesForListing`. -/
def findMatchesForListing (s : MatchingState) (listing : ScrapedListing) :
    List MatchResult :=
  findMatchesPure s.users s.criteria listing

def findMatch (s : MatchingState) (mid : Nat) : Option MatchRec :=
  s.matchRows.find? (fun m => m.id == mid)

def findUserById (s : MatchingState) (uid : String) : Option UserRec :=
  s.users.find? (fun u => u.id == uid)

def findListingById (s : MatchingState) (lid : String) : Option ScrapedListing :=
  s.listings.find? (fun l => l.id == lid)

def updateMatch (s : MatchingState) (mid : Nat) (f : MatchRec → MatchRec) :
    MatchingState :=
  { s with matchRows := s.matchRows.map (fun m => if m.id == mid then f m else m) }

def updateListing (s : MatchingState) (lid : String)
    (f : ScrapedListing → ScrapedListing) : MatchingState :=
  { s with listings := s.listings.map (fun l => if l.id == lid then f l else l) }

/-- The image loop of `notifyUser`: sequential `sendImage` calls on
`images.slice(0, 3)`.  A failing call throws out of the loop, so it returns
`false` with the remaining images unattempted. -/
def sendImagesSeq (env : MatchingEnv) (recipient : String) :
    List String → MatchingState → MatchingState × Bool
  | [], s => (s, true)
  | img :: rest, s =>
    if env.imageOk recipient img then
      sendImagesSeq env recipient rest
        { s with sentImages := s.sentImages ++ [(recipient, img)] }
    else (s, false)

/-- `MatchingService.notifyUser`.  The whole body sits in one `try` block:
a failing text send, or a failing image send, jumps to the `catch` (which
only logs), so the `isNotified` update and the Notification row are skipped.
A missing user/listing row cannot occur under referential integrity and is
likewise absorbed by the `catch` doing nothing. -/
def notifyUser (env : MatchingEnv) (s : MatchingState) (matchId : Nat) :
    MatchingState :=
  match findMatch s matchId with
  | none => s
  | some m =>
    if m.isNotified then s
    else
      match findUserById s m.userId, findListingById s m.listingId with
      | some u, some l =>
        let message := env.genMessage l (findCriteriaFor s.criteria u.id)
        if env.textOk u.whatsappNumber then
          let s1 := { s with sentTexts := s.sentTexts ++ [(u.whatsappNumber, message)] }
          match sendImagesSeq env u.whatsappNumber (l.images.take 3) s1 with
          | (s2, true) =>
            let s3 := updateMatch s2 matchId
              (fun mm => { mm with isNotified := true, notifiedAt := some env.now })
            { s3 with notifications := s3.notifications ++
                [{ userId := m.userId
                   type := "LISTING_MATCH"
                   title := "Nouvelle annonce trouvée !"
                   message := String.mk (message.toList.take 200)
                   relatedEntityId := m.listingId
                   relatedEntityType := "ScrapedListing" }] }
          | (s2, false) => s2
        else s
      | _, _ => s

/-- The per-candidate loop of `processMatches`: existing-pair check, Match
creation, `sentToUsers` push, and conditional hand-off to `notifyUser` with
the notified counter. -/
def processLoop (env : MatchingEnv) (listing : ScrapedListing) :
    List MatchResult → MatchingState → Nat → Nat × MatchingState
  | [], s, n => (n, s)
  | m :: rest, s, n =>
    match s.matchRows.find? (fun e => e.userId == m.userId && e.listingId == m.listingId) with
    | some _ => processLoop env listing rest s n
    | none =>
      let created : MatchRec :=
        { id := s.nextId
          userId := m.userId
          listingId := m.listingId
          matchScore := m.score
          matchReasons := m.reasons
          isNotified := false
          notifiedAt := none
          isViewed := false }
      let s1 := { s with matchRows := s.matchRows ++ [created], nextId := s.nextId + 1 }
      let s2 := updateListing s1 listing.id
        (fun li => { li with sentToUsers := li.sentToUsers ++ [m.userId] })
      if m.shouldNotify then
        processLoop env listing rest (notifyUser env s2 created.id) (n + 1)
      else
        processLoop env listing rest s2 n

/-- `MatchingService.processMatches`: returns the notified counter and the
updated state. -/
def processMatches (env : MatchingEnv) (s : MatchingState)
    (listing : ScrapedListing) : Nat × MatchingState :=
  processLoop env listing (findMatchesForListing s listing) s 0

/-! ## Ingestion and enrichment
(`FacebookScraperService.processPost`, `AIClassifierService.enrichListing` /
`processUnprocessedListings`) -/

/-- The normalized output of `AIClassifierService.extractPropertyData` after
`validateExtractedData` (an external AI call; modelled as an oracle). -/
structure ExtractedPropertyData where
  title : Option String
  price : Option Nat
  location : Option String
  surface : Option Nat
  rooms : Option Nat
  propertyType : Option PropertyType
  contact : Option String
  furnished : Option Bool
  description : Option String
  confidence : ℚ
deriving DecidableEq, Repr

structure FacebookGroup where
  groupId : String
  name : String
  keywords : List String
  isActive : Bool
deriving DecidableEq, Repr

structure FacebookPost where
  id : String
  text : String
  images : List String
deriving DecidableEq, Repr

/-- The database slice touched by ingestion and enrichment. -/
structure IngestState where
  listings : List ScrapedListing
  groups : List FacebookGroup
deriving DecidableEq, Repr

/-- External collaborators of enrichment: the extraction oracle (the service
degrades any failure to a `confidence = 0` result, so it is total) and the
configured confidence threshold (`AI_CONFIDENCE_THRESHOLD`, default 0.6). -/
structure IngestEnv where
  extract : String → ExtractedPropertyData
  confidenceThreshold : ℚ

/-- `FacebookScraperService.processPost`: dedup on `postId`, optional keyword
filter, then creation of the raw listing row.  The Prisma `create` sets
`isValid: true` explicitly; `aiEnriched` is not mentioned in the payload.
Modelled from the spec: the Prisma schema (not under `src/`) supplies the
default for `aiEnriched`; per the spec a listing is "created by ingestion
(raw), mutated once by enrichment (sets `aiEnriched`, extracted fields,
`isValid`)", so the ingestion default is `false`. -/
def processPost (s : IngestState) (post : FacebookPost)
    (groupId : String) : IngestState :=
  if (s.listings.find? (fun l => l.postId == post.id)).isSome then s
  else
    if 0 < (((s.groups.find? (fun g => g.groupId == groupId)).map
          (fun g => g.keywords)).getD []).length &&
        !(((s.groups.find? (fun g => g.groupId == groupId)).map
          (fun g => g.keywords)).getD []).any
            (fun k => jsIncludes (jsLower post.text) (jsLower k)) then s
    else
      { s with listings := s.listings ++
          [{ id := "l" ++ toString s.listings.length
             postId := post.id
             originalText := post.text
             title := none
             price := none
             location := none
             surface := none
             rooms := none
             propertyType := none
             furnished := none
             images := post.images
             isValid := true
             aiEnriched := false
             confidenceScore := none
             sentToUsers := [] }] }

/-- `AIClassifierService.isValidListing`: the minimum-quality gate run after
extraction. -/
def isValidListing (env : IngestEnv) (data : ExtractedPropertyData) : Bool :=
  if data.confidence < env.confidenceThreshold then false
  else if !truthy data.price && !truthyStr data.location then false
  else if truthy data.price &&
      (data.price.getD 0 < 10000 || 10000000 < data.price.getD 0) then false
  else true

/-- The record update performed by `AIClassifierService.enrichListing`. -/
def enrichedRecord (env : IngestEnv) (l : ScrapedListing)
    (extracted : ExtractedPropertyData) : ScrapedListing :=
  { l with
    title := extracted.title
    price := extracted.price
    location := extracted.location
    surface := extracted.surface
    rooms := extracted.rooms
    propertyType := extracted.propertyType
    furnished := extracted.furnished
    aiEnriched := true
    confidenceScore := some extracted.confidence
    isValid := isValidListing env extracted }

/-- `AIClassifierService.enrichListing`: extract, gate, and update the row. -/
def enrichListing (env : IngestEnv) (s : IngestState) (l : ScrapedListing) :
    IngestState :=
  { s with listings := s.listings.map (fun li =>
      if li.id == l.id then enrichedRecord env li (env.extract l.originalText)
      else li) }

/-- The batch query of `AIClassifierService.processUnprocessedListings`:
`where: { aiEnriched: false, isValid: true }, take: 50`. -/
def unprocessedBatch (s : IngestState) : List ScrapedListing :=
  (s.listings.filter (fun l => !l.aiEnriched && l.isValid)).take 50

/-- `AIClassifierService.processUnprocessedListings`: enrich each listing of
the batch (per-listing failures are caught and logged; the extraction oracle
already absorbs them). -/
def processUnprocessedListings (env : IngestEnv) (s : IngestState) :
    Nat × IngestState :=
  ((unprocessedBatch s).length,
    (unprocessedBatch s).foldl (fun st l => enrichListing env st l) s)

/-! ## Conversation Engine (`ConversationService`) -/

/-- The in-memory collection cursor (`MessageContext`): the step counter and
the `data` accumulator (`Partial<...>`, every field optional). -/
structure MessageContext where
  step : Nat
  propertyType : Option PropertyType
  minPrice : Option Nat
  maxPrice : Option Nat
  locations : Option (List String)
  minRooms : Option Nat
  minSurface : Option Nat
deriving DecidableEq, Repr

/-- The fresh cursor `{ step: 1, data: {} }`. -/
def step1Ctx : MessageContext :=
  { step := 1, propertyType := none, minPrice := none, maxPrice := none
    locations := none, minRooms := none, minSurface := none }

structure ConversationTurn where
  userId : String
  direction : Direction
  content : String
  whatsappMessageId : Option String
  mediaUrl : Option String
deriving DecidableEq, Repr

/-- The database slice touched by the conversation service plus the
in-process `contexts` map (keyed by WhatsApp number). -/
structure ConvState where
  users : List UserRec
  criteria : List PropertyCriteria
  conversations : List ConversationTurn
  contexts : List (String × MessageContext)
deriving DecidableEq, Repr

/-- External collaborators of the conversation service: WhatsApp delivery
outcome by (recipient, content) and the clock. -/
structure ConvEnv where
  sendOk : String → String → Bool
  now : Nat

def findUserByNumber (s : ConvState) (num : String) : Option UserRec :=
  s.users.find? (fun u => u.whatsappNumber == num)

def cUpdateUserById (s : ConvState) (uid : String) (f : UserRec → UserRec) :
    ConvState :=
  { s with users := s.users.map (fun u => if u.id == uid then f u else u) }

def cUpdateUserByNumber (s : ConvState) (num : String) (f : UserRec → UserRec) :
    ConvState :=
  { s with users := s.users.map (fun u => if u.whatsappNumber == num then f u else u) }

def getContext (s : ConvState) (num : String) : Option MessageContext :=
  (s.contexts.find? (fun e => e.1 == num)).map (fun e => e.2)

def setContext (s : ConvState) (num : String) (ctx : MessageContext) : ConvState :=
  { s with contexts := (num, ctx) :: s.contexts.filter (fun e => e.1 != num) }

def deleteContext (s : ConvState) (num : String) : ConvState :=
  { s with contexts := s.contexts.filter (fun e => e.1 != num) }

def findConvCriteria (s : ConvState) (uid : String) : Option PropertyCriteria :=
  s.criteria.find? (fun c => c.userId == uid)

/-- `ConversationService.sendMessage`: WhatsApp send, then an OUTGOING
ConversationTurn row when the send succeeded and the recipient has a User
row; a failed send is caught and logged, recording nothing. -/
def sendMessage (env : ConvEnv) (s : ConvState) (recipient content : String)
    (mediaUrl : Option String) : ConvState :=
  if env.sendOk recipient content then
    match findUserByNumber s recipient with
    | some u =>
      { s with conversations := s.conversations ++
          [{ userId := u.id, direction := Direction.OUTGOING, content := content
             whatsappMessageId := none, mediaUrl := mediaUrl }] }
    | none => s
  else s

/-- `ConversationService.saveCriteria` (Prisma `upsert` keyed on `userId`).
The criteria row exists from user creation, so the `update` payload applies:
Prisma leaves a column unchanged when its payload value is `undefined`, so
the optional numeric fields merge with the previous row via `<|>`, while
`propertyType` and `locations` carry explicit defaults and always
overwrite.  `maxRooms`/`maxSurface` are absent from the payload entirely. -/
def saveCriteria (s : ConvState) (userId : String) (d : MessageContext) :
    ConvState :=
  match findConvCriteria s userId with
  | none =>
    { s with criteria := s.criteria ++
        [{ userId := userId
           propertyType := d.propertyType.getD PropertyType.BOTH
           minPrice := d.minPrice
           maxPrice := d.maxPrice
           locations := d.locations.getD []
           minRooms := d.minRooms
           maxRooms := none
           minSurface := d.minSurface
           maxSurface := none }] }
  | some _ =>
    { s with criteria := s.criteria.map (fun c =>
        if c.userId == userId then
          { userId := userId
            propertyType := d.propertyType.getD PropertyType.BOTH
            minPrice := d.minPrice <|> c.minPrice
            maxPrice := d.maxPrice <|> c.maxPrice
            locations := d.locations.getD []
            minRooms := d.minRooms <|> c.minRooms
            maxRooms := c.maxRooms
            minSurface := d.minSurface <|> c.minSurface
            maxSurface := c.maxSurface }
        else c) }

/-! ### Outbound message texts (verbatim from `conversation.service.ts`;
`toLocaleString` digit grouping is abstracted to plain decimal rendering) -/

def welcomeText : String :=
  "🏠 *Bienvenue sur ImmoAlert!*\n\nJe suis votre assistant immobilier personnel qui surveille les groupes Facebook pour vous.\n\nJe vais vous envoyer instantanément les annonces qui correspondent à vos critères !\n\nPour commencer, dites-moi : cherchez-vous une *maison* 🏡 ou un *appartement* 🏢 ?\n\n(ou les deux - tapez \"les deux\")"

def idleModifyText : String :=
  "D accord, modifions vos critères. Cherchez-vous une maison ou un appartement ?"

def pausedText : String :=
  "⏸️ *Alertes suspendues.*\n\nVous ne recevrez plus de notifications. Tapez *REPRENDRE* pour réactiver."

def typeRepromptText : String :=
  "Je n ai pas compris. Veuillez répondre \"maison\", \"appartement\", ou \"les deux\"."

def priceQuestionText : String :=
  "Parfait ! Quelle est votre *fourchette de prix* en FCFA ? 💰\n\nExemples :\n• \"Entre 100000 et 300000 FCFA\"\n• \"Maximum 500000 FCFA\"\n• \"150000 FCFA minimum\""

def priceRepromptText : String :=
  "Je n ai pas compris la fourchette de prix. Pouvez-vous reformuler ?\nExemple : \"Entre 100000 et 300000 FCFA\""

def zoneQuestionText : String :=
  "Super ! Dans quelle(s) *zone(s)* souhaitez-vous chercher ? 📍\n\nExemples :\n• \"Lyon 3ème, Villeurbanne\"\n• \"Paris intra-muros\"\n• \"Bordeaux centre et alentours\""

def zoneRepromptText : String :=
  "Veuillez indiquer au moins une zone de recherche. Exemple : \"Lyon 3ème\""

def roomsQuestionText : String :=
  "D accord ! Combien de *pièces minimum* ? 🚪\n\nExemples :\n• \"2 pièces minimum\"\n• \"T3 ou plus\"\n• \"Pas d importance\" (pour ignorer)"

def surfaceQuestionText : String :=
  "Surface minimum souhaitée ? 📐\n\nExemples :\n• \"30m2 minimum\"\n• \"50m² ou plus\"\n• \"Pas important\" (pour ignorer)"

def confirmedText : String :=
  "✅ *Parfait ! Vos critères sont enregistrés.*\n\n🤖 Je surveille maintenant les groupes Facebook en temps réel.\n\n📱 Vous recevrez immédiatement les annonces correspondantes par WhatsApp !\n\n*Commandes disponibles :*\n• *MODIFIER* - Changer vos critères\n• *PAUSE* - Arrêter temporairement\n• *REPRENDRE* - Réactiver les alertes\n• *STATUT* - Voir vos critères actuels\n• *AIDE* - Obtenir de l aide"

def confirmModifyText : String :=
  "D accord, reprenons. Quel critère voulez-vous modifier ?\n\nRépondez par : TYPE, PRIX, ZONE, PIÈCES, ou SURFACE"

def confirmRepromptText : String :=
  "Veuillez répondre par *OUI* pour confirmer ou *MODIFIER* pour changer vos critères."

def activeModifyText : String :=
  "Modifions vos critères. Cherchez-vous une maison ou un appartement ?"

def activeDefaultText : String :=
  "Message reçu ! \n\n*Commandes disponibles :*\n• *MODIFIER* - Changer critères\n• *PAUSE* - Suspendre alertes\n• *STATUT* - Voir configuration\n• *AIDE* - Plus d options"

def resumedText : String :=
  "▶️ *Alertes réactivées !*\n\nVous recevrez à nouveau les nouvelles annonces correspondant à vos critères."

def pausedReminderText : String :=
  "Les alertes sont actuellement *suspendues*.\n\nTapez *REPRENDRE* pour réactiver ou *STATUT* pour voir vos critères."

def noCriteriaText : String :=
  "Vous n avez pas encore configuré de critères. Tapez *MODIFIER* pour commencer."

def helpText : String :=
  "🔧 *Menu d aide*\n\n*Commandes principales :*\n• *MODIFIER* - Changer vos critères de recherche\n• *PAUSE* - Arrêter temporairement les alertes\n• *REPRENDRE* - Réactiver les alertes\n• *STATUT* - Voir vos critères actuels\n• *AIDE* - Ce message\n\n*Besoin d aide supplémentaire ?*\nContactez-nous : support@immoalert.fr"

def mainMenuText : String :=
  "🔧 *Menu principal*\n\nQue souhaitez-vous faire ?\n\n• *MODIFIER* - Changer vos critères\n• *PAUSE* - Suspendre les alertes\n• *REPRENDRE* - Réactiver les alertes\n• *STATUT* - Voir configuration actuelle\n• *AIDE* - Plus d options"

/-- `${x?.toLocaleString() || 'dflt'}`: JS `||` on the rendered string. -/
def optNumOr (o : Option Nat) (dflt : String) : String :=
  match o with
  | some n => toString n
  | none => dflt

/-- `${x?.toLocaleString()}` alone renders `undefined` when absent. -/
def optNumOrUndef (o : Option Nat) : String := optNumOr o "undefined"

/-- `${x ? x + suffix : dflt}`: JS number truthiness (0 falls to `dflt`). -/
def truthyNumSuffix (o : Option Nat) (suffix dflt : String) : String :=
  if truthy o then toString (o.getD 0) ++ suffix else dflt

/-- Body of `sendCurrentStatus`. -/
def statusText (c : PropertyCriteria) (u : UserRec) : String :=
  "📋 *Vos critères actuels :*\n\n🏠 Type : " ++
  (if c.propertyType == PropertyType.HOUSE then "Maison"
   else if c.propertyType == PropertyType.APARTMENT then "Appartement"
   else "Les deux") ++
  "\n💰 Budget : " ++ optNumOr c.minPrice "Non défini" ++ " - " ++
  optNumOr c.maxPrice "Non défini" ++ " FCFA\n📍 Zones : " ++
  (let j := String.intercalate ", " c.locations
   if j == "" then "Non définies" else j) ++
  "\n🚪 Pièces : " ++ truthyNumSuffix c.minRooms "+" "Non défini" ++
  "\n📐 Surface : " ++ truthyNumSuffix c.minSurface "m²+" "Non définie" ++
  "\n\n📊 Statut : " ++
  (if u.conversationState == ConversationState.ACTIVE then "🟢 Actif"
   else if u.conversationState == ConversationState.PAUSED then "⏸️ En pause"
   else "🔴 Inactif")

/-- Body of `sendSummary`. -/
def summaryText (d : MessageContext) : String :=
  "📋 *Récapitulatif de vos critères :*\n\n🏠 Type : " ++
  (if d.propertyType == some PropertyType.HOUSE then "Maison"
   else if d.propertyType == some PropertyType.APARTMENT then "Appartement"
   else "Les deux") ++
  "\n💰 Budget : " ++ optNumOrUndef d.minPrice ++ " - " ++
  optNumOrUndef d.maxPrice ++ " FCFA\n📍 Zones : " ++
  (match d.locations with
   | some ls => String.intercalate ", " ls
   | none => "undefined") ++
  "\n🚪 Pièces : " ++ truthyNumSuffix d.minRooms "+" "Non spécifié" ++
  "\n📐 Surface : " ++ truthyNumSuffix d.minSurface "m²+" "Non spécifiée" ++
  "\n\nTout est correct ? Répondez *OUI* pour activer la surveillance ou *MODIFIER* pour changer."

/-- `ConversationService.sendCurrentStatus`. -/
def sendCurrentStatus (env : ConvEnv) (s : ConvState) (u : UserRec) : ConvState :=
  match findConvCriteria s u.id with
  | none => sendMessage env s u.whatsappNumber noCriteriaText none
  | some c => sendMessage env s u.whatsappNumber (statusText c u) none

/-- `ConversationService.createNewUser`: User row in `IDLE` plus an empty
criteria row (`propertyType: BOTH, locations: []`).  Row id generation is
abstracted deterministically; `isActive` is modelled from the spec as
defaulting to `false` (the schema is not under `src/`; §4.3 only sets it
`true` on confirmation). -/
def createNewUser (s : ConvState) (phone : String) : ConvState :=
  let uid := "u" ++ toString s.users.length
  { s with
    users := s.users ++
      [{ id := uid, whatsappNumber := phone
         conversationState := ConversationState.IDLE
         isActive := false, lastInteraction := none }]
    criteria := s.criteria ++
      [{ userId := uid, propertyType := PropertyType.BOTH
         minPrice := none, maxPrice := none, locations := []
         minRooms := none, maxRooms := none
         minSurface := none, maxSurface := none }] }

/-- `ConversationService.sendWelcomeMessage`: welcome text, transition to
`COLLECTING_CRITERIA`, fresh step-1 context. -/
def sendWelcomeMessage (env : ConvEnv) (s : ConvState) (recipient : String) :
    ConvState :=
  let s1 := sendMessage env s recipient welcomeText none
  let s2 := cUpdateUserByNumber s1 recipient
    (fun u => { u with conversationState := ConversationState.COLLECTING_CRITERIA })
  setContext s2 recipient step1Ctx

/-- `ConversationService.handleIdleState`. -/
def handleIdleState (env : ConvEnv) (s : ConvState) (user : UserRec)
    (message : String) : ConvState :=
  let text := lowerTrim message
  if text == "modifier" || text == "change" || text == "critères" then
    let s1 := cUpdateUserById s user.id
      (fun u => { u with conversationState := ConversationState.COLLECTING_CRITERIA })
    let s2 := setContext s1 user.whatsappNumber step1Ctx
    sendMessage env s2 user.whatsappNumber idleModifyText none
  else if text == "statut" || text == "status" then
    sendCurrentStatus env s user
  else if text == "aide" || text == "help" then
    sendMessage env s user.whatsappNumber helpText none
  else if text == "pause" || text == "stop" then
    let s1 := cUpdateUserById s user.id
      (fun u => { u with conversationState := ConversationState.PAUSED })
    sendMessage env s1 user.whatsappNumber pausedText none
  else
    sendMessage env s user.whatsappNumber mainMenuText none

/-- `ConversationService.handleCriteriaCollection`.  Branches that re-prompt
`return` out of the method and leave the contexts map untouched; branches
that fall through the `switch` reach the trailing
`this.contexts.set(user.whatsappNumber, context)` (step 5 therefore deletes
the context and immediately re-adds it). -/
def handleCriteriaCollection (env : ConvEnv) (s : ConvState) (user : UserRec)
    (message : String) : ConvState :=
  let context := (getContext s user.whatsappNumber).getD step1Ctx
  let text := lowerTrim message
  match context.step with
  | 1 =>
    if jsIncludes text "maison" || jsIncludes text "house" then
      let c2 := { context with propertyType := some PropertyType.HOUSE, step := 2 }
      let s1 := sendMessage env s user.whatsappNumber priceQuestionText none
      setContext s1 user.whatsappNumber c2
    else if jsIncludes text "appartement" || jsIncludes text "appart" ||
        jsIncludes text "apartment" then
      let c2 := { context with propertyType := some PropertyType.APARTMENT, step := 2 }
      let s1 := sendMessage env s user.whatsappNumber priceQuestionText none
      setContext s1 user.whatsappNumber c2
    else if jsIncludes text "deux" || jsIncludes text "both" ||
        jsIncludes text "tout" then
      let c2 := { context with propertyType := some PropertyType.BOTH, step := 2 }
      let s1 := sendMessage env s user.whatsappNumber priceQuestionText none
      setContext s1 user.whatsappNumber c2
    else
      sendMessage env s user.whatsappNumber typeRepromptText none
  | 2 =>
    let priceMatch := jsPriceMatches message
    let ctx2 :=
      if priceMatch.isEmpty then context
      else
        let prices := (priceMatch.map (fun p =>
          digitsToNat (p.toList.filter Char.isDigit))).filter (fun p => 0 < p)
        if prices.length == 0 then context
        else if prices.length == 1 then
          if jsIncludes text "max" || jsIncludes text "maximum" then
            { context with maxPrice := some (prices.headD 0), minPrice := some 0 }
          else
            -- JS `Math.floor(prices[0] * 0.6)`, computed in binary floating
            -- point; modelled as the exact rational floor `3p/5`, which
            -- agrees at every price at issue in the claims.
            { context with maxPrice := some (prices.headD 0)
                           minPrice := some (prices.headD 0 * 3 / 5) }
        else
          { context with minPrice := some (jsMin prices)
                         maxPrice := some (jsMax prices) }
    if !truthy ctx2.minPrice && !truthy ctx2.maxPrice then
      sendMessage env s user.whatsappNumber priceRepromptText none
    else
      let c3 := { ctx2 with step := 3 }
      let s1 := sendMessage env s user.whatsappNumber zoneQuestionText none
      setContext s1 user.whatsappNumber c3
  | 3 =>
    let locs := ((jsSplit message [',', ';', '/', '-']).map jsTrim).filter
      (fun l => 2 < l.length)
    if locs.length == 0 then
      sendMessage env s user.whatsappNumber zoneRepromptText none
    else
      let c4 := { context with locations := some locs, step := 4 }
      let s1 := sendMessage env s user.whatsappNumber roomsQuestionText none
      setContext s1 user.whatsappNumber c4
  | 4 =>
    let ctx2 :=
      if !jsIncludes text "pas" && !jsIncludes text "ignore" &&
          !jsIncludes text "peu" then
        match jsFirstNumber message with
        | some n => { context with minRooms := some n }
        | none => context
      else context
    let c5 := { ctx2 with step := 5 }
    let s1 := sendMessage env s user.whatsappNumber surfaceQuestionText none
    setContext s1 user.whatsappNumber c5
  | 5 =>
    let ctx2 :=
      if !jsIncludes text "pas" && !jsIncludes text "ignore" &&
          !jsIncludes text "peu" then
        match jsFirstNumber message with
        | some n => { context with minSurface := some n }
        | none => context
      else context
    let s1 := saveCriteria s user.id ctx2
    let s2 := sendMessage env s1 user.whatsappNumber (summaryText ctx2) none
    let s3 := cUpdateUserById s2 user.id
      (fun u => { u with conversationState := ConversationState.CONFIRMING })
    let s4 := deleteContext s3 user.whatsappNumber
    setContext s4 user.whatsappNumber ctx2
  | _ => setContext s user.whatsappNumber context

/-- `ConversationService.handleConfirmation`. -/
def handleConfirmation (env : ConvEnv) (s : ConvState) (user : UserRec)
    (message : String) : ConvState :=
  let text := lowerTrim message
  if text == "oui" || text == "yes" || text == "ok" || text == "parfait" then
    let s1 := cUpdateUserById s user.id
      (fun u => { u with conversationState := ConversationState.ACTIVE
                         isActive := true })
    sendMessage env s1 user.whatsappNumber confirmedText none
  else if text == "non" || text == "no" || text == "modifier" || text == "change" then
    let s1 := cUpdateUserById s user.id
      (fun u => { u with conversationState := ConversationState.COLLECTING_CRITERIA })
    let s2 := setContext s1 user.whatsappNumber step1Ctx
    sendMessage env s2 user.whatsappNumber confirmModifyText none
  else
    sendMessage env s user.whatsappNumber confirmRepromptText none

/-- `ConversationService.handleActiveState`.  Note: only the exact word
`modifier` resets the collection here; `change` and `critères` fall through
to the default acknowledgment. -/
def handleActiveState (env : ConvEnv) (s : ConvState) (user : UserRec)
    (message : String) : ConvState :=
  let text := lowerTrim message
  if text == "modifier" then
    let s1 := cUpdateUserById s user.id
      (fun u => { u with conversationState := ConversationState.COLLECTING_CRITERIA })
    let s2 := setContext s1 user.whatsappNumber step1Ctx
    sendMessage env s2 user.whatsappNumber activeModifyText none
  else if text == "pause" || text == "stop" then
    let s1 := cUpdateUserById s user.id
      (fun u => { u with conversationState := ConversationState.PAUSED })
    sendMessage env s1 user.whatsappNumber pausedText none
  else if text == "statut" || text == "status" then
    sendCurrentStatus env s user
  else if text == "aide" || text == "help" then
    sendMessage env s user.whatsappNumber helpText none
  else
    sendMessage env s user.whatsappNumber activeDefaultText none

/-- `ConversationService.handlePausedState`. -/
def handlePausedState (env : ConvEnv) (s : ConvState) (user : UserRec)
    (message : String) : ConvState :=
  let text := lowerTrim message
  if text == "reprendre" || text == "resume" || text == "start" then
    let s1 := cUpdateUserById s user.id
      (fun u => { u with conversationState := ConversationState.ACTIVE
                         isActive := true })
    sendMessage env s1 user.whatsappNumber resumedText none
  else if text == "statut" then
    sendCurrentStatus env s user
  else
    sendMessage env s user.whatsappNumber pausedReminderText none

/-- The `switch (user.conversationState)` at the end of
`handleIncomingMessage`. -/
def dispatchMessage (env : ConvEnv) (s : ConvState) (user : UserRec)
    (message : String) : ConvState :=
  match user.conversationState with
  | ConversationState.IDLE => handleIdleState env s user message
  | ConversationState.COLLECTING_CRITERIA => handleCriteriaCollection env s user message
  | ConversationState.CONFIRMING => handleConfirmation env s user message
  | ConversationState.ACTIVE => handleActiveState env s user message
  | ConversationState.PAUSED => handlePausedState env s user message

/-- `ConversationService.handleIncomingMessage`.  An unknown sender gets a
User row and the welcome flow, and the method returns **without** recording
the inbound message; for a known sender the INCOMING ConversationTurn is
recorded before the state dispatch runs. -/
def handleIncomingMessage (env : ConvEnv) (s : ConvState)
    (whatsappNumber message : String) (messageId : Option String) : ConvState :=
  match findUserByNumber s whatsappNumber with
  | none =>
    let s1 := createNewUser s whatsappNumber
    sendWelcomeMessage env s1 whatsappNumber
  | some user =>
    let s1 := cUpdateUserById s user.id
      (fun u => { u with lastInteraction := some env.now })
    let s2 := { s1 with conversations := s1.conversations ++
        [{ userId := user.id, direction := Direction.INCOMING, content := message
           whatsappMessageId := messageId, mediaUrl := none }] }
    dispatchMessage env s2 user message

/-! ## Concrete fixtures for the closed theorems and witnesses -/

/-- A delivery environment in which every outbound WhatsApp send succeeds. -/
def convEnvT : ConvEnv := { sendOk := fun _ _ => true, now := 7 }

def c5State : ConvState :=
  { users := [{ id := "u0", whatsappNumber := "241000001"
                conversationState := ConversationState.COLLECTING_CRITERIA
                isActive := false, lastInteraction := none }]
    criteria := [{ userId := "u0", propertyType := PropertyType.BOTH
                   minPrice := none, maxPrice := none, locations := []
                   minRooms := none, maxRooms := none
                   minSurface := none, maxSurface := none }]
    conversations := []
    contexts := [("241000001", step1Ctx)] }

def c5Final : ConvState :=
  (["maison", "250000", "Lyon", "pas important", "pas important"]).foldl
    (fun st m => handleIncomingMessage convEnvT st "241000001" m none) c5State

def c1State : ConvState :=
  { users := [{ id := "u1", whatsappNumber := "241000002"
                conversationState := ConversationState.COLLECTING_CRITERIA
                isActive := false, lastInteraction := none }]
    criteria := [{ userId := "u1", propertyType := PropertyType.BOTH
                   minPrice := none, maxPrice := none, locations := []
                   minRooms := none, maxRooms := none
                   minSurface := none, maxSurface := none }]
    conversations := []
    contexts := [("241000002",
      { step := 2, propertyType := some PropertyType.HOUSE, minPrice := none
        maxPrice := none, locations := none, minRooms := none, minSurface := none })] }

def c1Listing : ScrapedListing :=
  { id := "L1", postId := "p1", originalText := "t", title := none
    price := some 100000, location := some "Libreville", surface := none
    rooms := none, propertyType := some PropertyType.HOUSE, furnished := none
    images := [], isValid := true, aiEnriched := true, confidenceScore := none
    sentToUsers := [] }

/-- The criteria as stored after a `"Maximum 250000 FCFA"` answer:
`minPrice = 0`, `maxPrice = 250000`. -/
def c1Criteria : PropertyCriteria :=
  { userId := "u1", propertyType := PropertyType.HOUSE
    minPrice := some 0, maxPrice := some 250000, locations := ["Libreville"]
    minRooms := none, maxRooms := none, minSurface := none, maxSurface := none }

def c6User : UserRec :=
  { id := "u1", whatsappNumber := "241000003"
    conversationState := ConversationState.ACTIVE, isActive := true
    lastInteraction := none }

/-- Criteria with no numeric bounds, matching location and type: every
dimension scores full credit (total 100) against `c6Listing`. -/
def c6Criteria : PropertyCriteria :=
  { userId := "u1", propertyType := PropertyType.BOTH
    minPrice := none, maxPrice := none, locations := ["libreville"]
    minRooms := none, maxRooms := none, minSurface := none, maxSurface := none }

def c6Listing : ScrapedListing :=
  { id := "L1", postId := "p1", originalText := "t", title := none
    price := none, location := some "Libreville Centre", surface := none
    rooms := none, propertyType := some PropertyType.HOUSE, furnished := none
    images := [], isValid := true, aiEnriched := true, confidenceScore := none
    sentToUsers := [] }

def c6State : MatchingState :=
  { users := [c6User], criteria := [c6Criteria], listings := [c6Listing]
    matchRows := [], notifications := [], sentTexts := [], sentImages := []
    nextId := 0 }

/-- Delivery environment in which every primary text delivery fails. -/
def c6EnvFail : MatchingEnv :=
  { textOk := fun _ => false, imageOk := fun _ _ => true
    genMessage := fun _ _ => "MSG", now := 5 }

def c3Listing : ScrapedListing :=
  { c6Listing with images := ["imgA", "imgB"] }

def c3Match : MatchRec :=
  { id := 0, userId := "u1", listingId := "L1", matchScore := 85
    matchReasons := [], isNotified := false, notifiedAt := none
    isViewed := false }

def c3State : MatchingState :=
  { users := [c6User], criteria := [c6Criteria], listings := [c3Listing]
    matchRows := [c3Match]
    notifications := [], sentTexts := [], sentImages := [], nextId := 1 }

/-- Delivery environment in which the text succeeds but the delivery of
`"imgA"` (the listing's first image) fails. -/
def c3Env : MatchingEnv :=
  { textOk := fun _ => true, imageOk := fun _ img => img == "imgB"
    genMessage := fun _ _ => "MSG", now := 5 }

/-- Delivery environment in which every delivery succeeds. -/
def c3EnvOk : MatchingEnv :=
  { textOk := fun _ => true, imageOk := fun _ _ => true
    genMessage := fun _ _ => "MSG", now := 5 }

def c7Empty : ConvState :=
  { users := [], criteria := [], conversations := [], contexts := [] }

def c8User : UserRec :=
  { id := "u1", whatsappNumber := "241000004"
    conversationState := ConversationState.ACTIVE, isActive := true
    lastInteraction := none }

def c8State : ConvState :=
  { users := [c8User], criteria := [], conversations := [], contexts := [] }

/-- A user mid-way through a second collection pass: the stored criteria from
the first pass have `minRooms = 3` and `minSurface = 40`; the fresh
accumulator at step 5 never set either field. -/
def c2User : UserRec :=
  { id := "u0", whatsappNumber := "241000005"
    conversationState := ConversationState.COLLECTING_CRITERIA
    isActive := true, lastInteraction := none }

def c2Old : PropertyCriteria :=
  { userId := "u0", propertyType := PropertyType.HOUSE
    minPrice := some 100000, maxPrice := some 300000
    locations := ["Akanda"], minRooms := some 3, maxRooms := none
    minSurface := some 40, maxSurface := none }

def c2Ctx : MessageContext :=
  { step := 5, propertyType := some PropertyType.HOUSE
    minPrice := some 150000, maxPrice := some 250000
    locations := some ["Paris"], minRooms := none, minSurface := none }

def c2State : ConvState :=
  { users := [c2User]
    criteria := [c2Old]
    conversations := []
    contexts := [("241000005", c2Ctx)] }

def c9Listing : ScrapedListing :=
  { id := "L9", postId := "p9", originalText := "t", title := none
    price := some 999999999, location := none, surface := some 77
    rooms := some 12, propertyType := none, furnished := none
    images := [], isValid := true, aiEnriched := true, confidenceScore := none
    sentToUsers := [] }

def c9Criteria : PropertyCriteria :=
  { userId := "u9", propertyType := PropertyType.BOTH
    minPrice := none, maxPrice := none, locations := []
    minRooms := none, maxRooms := none, minSurface := none, maxSurface := none }

def c10Post : FacebookPost := { id := "post0", text := "maison à vendre", images := [] }

def c10State : IngestState := { listings := [], groups := [] }

/-- The listing row `processPost` creates for `c10Post` on `c10State`. -/
def c10Created : ScrapedListing :=
  { id := "l0", postId := "post0", originalText := "maison à vendre"
    title := none, price := none, location := none, surface := none
    rooms := none, propertyType := none, furnished := none, images := []
    isValid := true, aiEnriched := false, confidenceScore := none
    sentToUsers := [] }

/-- The (userId, listingId) key of a Match row — the pair on which the
at-most-one-Match invariant is stated. -/
def matchKey (m : MatchRec) : String × String := (m.userId, m.listingId)

/-- The key of a candidate `MatchResult`. -/
def resultKey (m : MatchResult) : String × String := (m.userId, m.listingId)

/-! ## Claim theorems -/

set_option maxRecDepth 8000 in
/-- C1 (code bug): the criteria-collection flow stores `minPrice = 0,
maxPrice = 250000` for the answer "Maximum 250000 FCFA", and a listing
priced 100000 lies inside `[0, 250000]`; yet `calculateMatchScore` awards 0
on the price dimension instead of the full 30, because the JS guard
`criteria.minPrice &&` treats the stored `0` as an unset bound. -/
theorem c1_min_price_zero_scores_zero :
    (getContext (handleIncomingMessage convEnvT c1State "241000002"
        "Maximum 250000 FCFA" none) "241000002").map
      (fun c => (c.minPrice, c.maxPrice)) = some (some 0, some 250000) ∧
    (c1Criteria.minPrice.getD 0 ≤ c1Listing.price.getD 0 ∧
      c1Listing.price.getD 0 ≤ c1Criteria.maxPrice.getD 0) ∧
    (calculateMatchScore c1Listing c1Criteria).price = 0 := by decide

set_option maxRecDepth 8000 in
/-- C5: from `COLLECTING_CRITERIA` step 1 with an empty accumulator, the
messages "maison", "250000", "Lyon", "pas important", "pas important" end in
state `CONFIRMING` with persisted criteria
`{propertyType: HOUSE, minPrice: 150000, maxPrice: 250000, locations:
["Lyon"]}` and neither `minRooms` nor `minSurface` set in the
accumulator. -/
theorem c5_collection_trace_confirming :
    (findUserByNumber c5Final "241000001").map (fun u => u.conversationState) =
      some ConversationState.CONFIRMING ∧
    findConvCriteria c5Final "u0" =
      some { userId := "u0", propertyType := PropertyType.HOUSE
             minPrice := some 150000, maxPrice := some 250000
             locations := ["Lyon"], minRooms := none, maxRooms := none
             minSurface := none, maxSurface := none } ∧
    (getContext c5Final "241000001").map (fun c => (c.minRooms, c.minSurface)) =
      some (none, none) := by decide

/-- C9: when neither bound of a dimension is set, `calculateMatchScore`
awards the dimension's full credit regardless of the listing's value:
30 for price, 20 for surface, 15 for rooms. -/
theorem c9_unset_bounds_full_credit (l : ScrapedListing) (c : PropertyCriteria) :
    (c.minPrice = none ∧ c.maxPrice = none →
      (calculateMatchScore l c).price = 30) ∧
    (c.minSurface = none ∧ c.maxSurface = none →
      (calculateMatchScore l c).surface = 20) ∧
    (c.minRooms = none ∧ c.maxRooms = none →
      (calculateMatchScore l c).rooms = 15) := by
  refine ⟨fun ⟨h1, h2⟩ => ?_, fun ⟨h1, h2⟩ => ?_, fun ⟨h1, h2⟩ => ?_⟩ <;>
    simp [calculateMatchScore, scorePrice, scoreSurface, scoreRooms, truthy, h1, h2]

/-- Witness for C9 at a concrete listing and a concrete all-unset criteria. -/
theorem c9_unset_bounds_full_credit_witness :
    (calculateMatchScore c9Listing c9Criteria).price = 30 ∧
    (calculateMatchScore c9Listing c9Criteria).surface = 20 ∧
    (calculateMatchScore c9Listing c9Criteria).rooms = 15 :=
  ⟨(c9_unset_bounds_full_credit c9Listing c9Criteria).1 ⟨rfl, rfl⟩,
   (c9_unset_bounds_full_credit c9Listing c9Criteria).2.1 ⟨rfl, rfl⟩,
   (c9_unset_bounds_full_credit c9Listing c9Criteria).2.2 ⟨rfl, rfl⟩⟩

/-- C10: ingestion creates listings with `isValid = true` and
`aiEnriched = false`; the enrichment batch selects exactly listings with
`aiEnriched = false ∧ isValid = true`; enrichment always sets
`aiEnriched = true`; hence a listing that has been enriched (in particular
one marked invalid by enrichment) is never selected for enrichment again. -/
theorem c10_ingestion_enrichment_invariant :
    (∀ s post gid, ∀ l ∈ (processPost s post gid).listings,
      l ∈ s.listings ∨ (l.isValid = true ∧ l.aiEnriched = false)) ∧
    (∀ s, ∀ l ∈ unprocessedBatch s, l.aiEnriched = false ∧ l.isValid = true) ∧
    (∀ env l ext, (enrichedRecord env l ext).aiEnriched = true) ∧
    (∀ s l, l.aiEnriched = true → l ∉ unprocessedBatch s) := by
  refine ⟨?_, ?_, ?_, ?_⟩
  · intro s post gid l hl
    unfold processPost at hl
    split at hl
    · exact Or.inl hl
    · split at hl
      · exact Or.inl hl
      · simp only [List.mem_append, List.mem_singleton] at hl
        rcases hl with h | h
        · exact Or.inl h
        · subst h; exact Or.inr ⟨rfl, rfl⟩
  · intro s l hl
    have h2 := (List.mem_filter.mp (List.mem_of_mem_take hl)).2
    simp only [Bool.and_eq_true, Bool.not_eq_true'] at h2
    exact h2
  · intro env l ext; rfl
  · intro s l h hmem
    have h2 := (List.mem_filter.mp (List.mem_of_mem_take hmem)).2
    simp [h] at h2

/-- Witness for C10: on an empty store, ingesting a post creates exactly the
valid, unenriched row `c10Created`. -/
theorem c10_ingestion_enrichment_invariant_witness :
    c10Created.isValid = true ∧ c10Created.aiEnriched = false :=
  (c10_ingestion_enrichment_invariant.1 c10State c10Post "g" c10Created
      (by decide)).resolve_left (by decide)

set_option maxRecDepth 8000 in
/-- C2 counterexample: completing step 5 with "pas important" (surface
skipped, rooms never set in this pass) leaves the previously stored
`minRooms = 3` and `minSurface = 40` in the persisted criteria — the claim
expects both unset after a full overwrite. -/
theorem c2_skipped_fields_retained :
    (findConvCriteria (handleIncomingMessage convEnvT c2State "241000005"
        "pas important" none) "u0").map (fun c => (c.minRooms, c.minSurface)) =
      some (some 3, some 40) ∧
    (findUserByNumber (handleIncomingMessage convEnvT c2State "241000005"
        "pas important" none) "241000005").map (fun u => u.conversationState) =
      some ConversationState.CONFIRMING := by decide

set_option maxRecDepth 8000 in
/-- C3 counterexample: the primary text delivery succeeds, the first image
delivery fails; `notifyUser` then skips the remaining image (which would
have succeeded) and never sets `isNotified` — contradicting the claim that
an image failure aborts nothing. -/
theorem c3_image_failure_aborts :
    (notifyUser c3Env c3State 0).sentTexts = [("241000003", "MSG")] ∧
    (notifyUser c3Env c3State 0).sentImages = [] ∧
    ((notifyUser c3Env c3State 0).matchRows.map (fun m => m.isNotified)) =
      [false] := by decide

set_option maxRecDepth 8000 in
/-- C6 counterexample: with one matching user whose primary text delivery
fails, `processMatches` still returns 1, although no text was delivered and
the created Match is unnotified — the count is of dispatch attempts, not of
actual deliveries. -/
theorem c6_failed_delivery_still_counted :
    (processMatches c6EnvFail c6State c6Listing).1 = 1 ∧
    (processMatches c6EnvFail c6State c6Listing).2.sentTexts = [] ∧
    ((processMatches c6EnvFail c6State c6Listing).2.matchRows.map
      (fun m => m.isNotified)) = [false] := by with_unfolding_all decide

set_option maxRecDepth 8000 in
/-- C7 counterexample: the very first message from an unknown sender creates
the User but is never persisted as an INCOMING ConversationTurn (the handler
returns right after the welcome flow). -/
theorem c7_first_message_not_persisted :
    ((handleIncomingMessage convEnvT c7Empty "241000009" "bonjour" none).conversations.filter
      (fun t => t.direction == Direction.INCOMING)) = [] ∧
    (handleIncomingMessage convEnvT c7Empty "241000009" "bonjour" none).users.length = 1 := by
  decide

set_option maxRecDepth 8000 in
/-- C8 counterexample: for a user in `ACTIVE`, the command words "change"
and "critères" do not transition to `COLLECTING_CRITERIA` (the user stays
`ACTIVE` and no step-1 accumulator is created); only "modifier" does. -/
theorem c8_change_word_no_transition :
    ((findUserByNumber (handleIncomingMessage convEnvT c8State "241000004" "change" none)
      "241000004").map (fun u => u.conversationState) =
        some ConversationState.ACTIVE) ∧
    ((findUserByNumber (handleIncomingMessage convEnvT c8State "241000004" "critères" none)
      "241000004").map (fun u => u.conversationState) =
        some ConversationState.ACTIVE) ∧
    getContext (handleIncomingMessage convEnvT c8State "241000004" "change" none)
      "241000004" = none := by decide

/-! ## Match Engine lemmas (for C4 and C6) -/

theorem sendImagesSeq_preserves (env : MatchingEnv) (r : String) :
    ∀ (imgs : List String) (s : MatchingState),
      ((sendImagesSeq env r imgs s).1).users = s.users ∧
      ((sendImagesSeq env r imgs s).1).criteria = s.criteria ∧
      ((sendImagesSeq env r imgs s).1).matchRows = s.matchRows ∧
      ((sendImagesSeq env r imgs s).1).nextId = s.nextId := by
  intro imgs
  induction imgs with
  | nil => intro s; exact ⟨rfl, rfl, rfl, rfl⟩
  | cons img rest ih =>
    intro s
    unfold sendImagesSeq
    by_cases h : env.imageOk r img = true
    · simp only [h, if_true]
      exact ih _
    · simp only [h, if_false]
      exact ⟨rfl, rfl, rfl, rfl⟩

theorem updateMatch_keys (s : MatchingState) (mid : Nat) (f : MatchRec → MatchRec)
    (hf : ∀ m, matchKey (f m) = matchKey m) :
    (updateMatch s mid f).matchRows.map matchKey = s.matchRows.map matchKey := by
  simp only [updateMatch, List.map_map]
  apply List.map_congr_left
  intro m _
  simp only [Function.comp]
  split
  · exact hf m
  · rfl

theorem notifyUser_preserves (env : MatchingEnv) (s : MatchingState) (mid : Nat) :
    (notifyUser env s mid).users = s.users ∧
    (notifyUser env s mid).criteria = s.criteria ∧
    (notifyUser env s mid).nextId = s.nextId ∧
    (notifyUser env s mid).matchRows.map matchKey = s.matchRows.map matchKey := by
  unfold notifyUser
  split
  · exact ⟨rfl, rfl, rfl, rfl⟩
  · split
    · exact ⟨rfl, rfl, rfl, rfl⟩
    · split
      · rename_i u l hu hl
        split
        · dsimp only
          split
          · next s2 heq =>
            have hpre := sendImagesSeq_preserves env u.whatsappNumber
              (l.images.take 3)
              { s with sentTexts := s.sentTexts ++
                  [(u.whatsappNumber, env.genMessage l (findCriteriaFor s.criteria u.id))] }
            rw [heq] at hpre
            have hkeys : (updateMatch s2 mid (fun mm =>
                { mm with isNotified := true, notifiedAt := some env.now })).matchRows.map matchKey
                = s2.matchRows.map matchKey :=
              updateMatch_keys s2 mid _ (fun _ => rfl)
            refine ⟨hpre.1, hpre.2.1, hpre.2.2.2, ?_⟩
            rw [hkeys, hpre.2.2.1]
          · next s2 heq =>
            have hpre := sendImagesSeq_preserves env u.whatsappNumber
              (l.images.take 3)
              { s with sentTexts := s.sentTexts ++
                  [(u.whatsappNumber, env.genMessage l (findCriteriaFor s.criteria u.id))] }
            rw [heq] at hpre
            exact ⟨hpre.1, hpre.2.1, hpre.2.2.2,
              by rw [hpre.2.2.1]⟩
        · exact ⟨rfl, rfl, rfl, rfl⟩
      · exact ⟨rfl, rfl, rfl, rfl⟩

theorem processLoop_preserves (env : MatchingEnv) (listing : ScrapedListing) :
    ∀ (L : List MatchResult) (s : MatchingState) (n : Nat),
      ((processLoop env listing L s n).2).users = s.users ∧
      ((processLoop env listing L s n).2).criteria = s.criteria := by
  intro L
  induction L with
  | nil => intro s n; exact ⟨rfl, rfl⟩
  | cons m rest ih =>
    intro s n
    unfold processLoop
    split
    · exact ih s n
    · split
      · exact ⟨(ih _ _).1.trans (((notifyUser_preserves env _ _).1).trans rfl),
          (ih _ _).2.trans (((notifyUser_preserves env _ _).2.1).trans rfl)⟩
      · exact ⟨(ih _ _).1.trans rfl, (ih _ _).2.trans rfl⟩

/-- `find?` on the (userId, listingId) predicate succeeds exactly when the
key occurs among the rows' keys. -/
theorem find_key_isSome (rows : List MatchRec) (uid lid : String) :
    (rows.find? (fun e => e.userId == uid && e.listingId == lid)).isSome = true ↔
      (uid, lid) ∈ rows.map matchKey := by
  induction rows with
  | nil => simp
  | cons e rest ih =>
    by_cases h : (e.userId == uid && e.listingId == lid) = true
    · have hk : matchKey e = (uid, lid) := by
        simp only [Bool.and_eq_true, beq_iff_eq] at h
        simp [matchKey, h.1, h.2]
      simp [List.find?, h, hk]
    · have hk : matchKey e ≠ (uid, lid) := by
        simp only [Bool.and_eq_true, beq_iff_eq] at h
        simp only [matchKey, ne_eq, Prod.mk.injEq]
        intro hcon
        exact h ⟨hcon.1, hcon.2⟩
      simp [List.find?, h, ih, hk, Ne.symm hk]

theorem processLoop_keys_mono (env : MatchingEnv) (listing : ScrapedListing) :
    ∀ (L : List MatchResult) (s : MatchingState) (n : Nat) (k : String × String),
      k ∈ s.matchRows.map matchKey →
      k ∈ ((processLoop env listing L s n).2).matchRows.map matchKey := by
  intro L
  induction L with
  | nil => intro s n k hk; exact hk
  | cons m rest ih =>
    intro s n k hk
    unfold processLoop
    split
    · exact ih s n k hk
    · split
      · refine ih _ (n + 1) k ?_
        rw [(notifyUser_preserves env _ _).2.2.2]
        simp only [updateListing, List.map_append, List.mem_append]
        exact Or.inl hk
      · refine ih _ n k ?_
        simp only [updateListing, List.map_append, List.mem_append]
        exact Or.inl hk

theorem processLoop_covers (env : MatchingEnv) (listing : ScrapedListing) :
    ∀ (L : List MatchResult) (s : MatchingState) (n : Nat) (m : MatchResult),
      m ∈ L →
      resultKey m ∈ ((processLoop env listing L s n).2).matchRows.map matchKey := by
  intro L
  induction L with
  | nil => intro s n m hm; cases hm
  | cons hd rest ih =>
    intro s n m hm
    unfold processLoop
    rcases List.mem_cons.mp hm with hEq | hmem
    · subst hEq
      split
      · next e heq =>
        have he := List.find?_some heq
        simp only [Bool.and_eq_true, beq_iff_eq] at he
        apply processLoop_keys_mono
        have hk : matchKey e = resultKey m := by
          simp [matchKey, resultKey, he.1, he.2]
        rw [← hk]
        exact List.mem_map_of_mem matchKey (List.mem_of_find?_eq_some heq)
      · split
        · apply processLoop_keys_mono
          rw [(notifyUser_preserves env _ _).2.2.2]
          simp [updateListing, matchKey, resultKey]
        · apply processLoop_keys_mono
          simp [updateListing, matchKey, resultKey]
    · split
      · exact ih s n m hmem
      · split
        · exact ih _ (n + 1) m hmem
        · exact ih _ n m hmem

theorem processLoop_noop (env : MatchingEnv) (listing : ScrapedListing) :
    ∀ (L : List MatchResult) (s : MatchingState) (n : Nat),
      (∀ m ∈ L, (s.matchRows.find? (fun e =>
        e.userId == m.userId && e.listingId == m.listingId)).isSome = true) →
      processLoop env listing L s n = (n, s) := by
  intro L
  induction L with
  | nil => intro s n _; rfl
  | cons m rest ih =>
    intro s n h
    unfold processLoop
    split
    · exact ih s n (fun m' hm' => h m' (List.mem_cons_of_mem m hm'))
    · next hnone =>
      have := h m (List.mem_cons_self m rest)
      rw [hnone] at this
      cases this

/-- C4: re-running `processMatches` on the same listing against the state it
itself produced is a complete no-op — notified count 0 and the state
(Match store, `sentToUsers`, delivery logs) unchanged. -/
theorem c4_process_matches_idempotent (env : MatchingEnv) (s : MatchingState)
    (listing : ScrapedListing) :
    processMatches env (processMatches env s listing).2 listing =
      (0, (processMatches env s listing).2) := by
  unfold processMatches
  have hpre := processLoop_preserves env listing (findMatchesForListing s listing) s 0
  have hcand : findMatchesForListing
      ((processLoop env listing (findMatchesForListing s listing) s 0).2) listing =
      findMatchesForListing s listing := by
    show findMatchesPure
        ((processLoop env listing (findMatchesForListing s listing) s 0).2).users
        ((processLoop env listing (findMatchesForListing s listing) s 0).2).criteria
        listing =
      findMatchesPure s.users s.criteria listing
    rw [hpre.1, hpre.2]
  rw [hcand]
  apply processLoop_noop
  intro m hm
  rw [find_key_isSome]
  exact processLoop_covers env listing _ s 0 m hm

/-- The per-candidate loop's notified count depends only on the Match keys,
never on delivery outcomes: two runs under different environments from
key-equal states return the same count. -/
theorem processLoop_count_env_indep (envA envB : MatchingEnv)
    (listing : ScrapedListing) :
    ∀ (L : List MatchResult) (sA sB : MatchingState) (n : Nat),
      sA.matchRows.map matchKey = sB.matchRows.map matchKey →
      (processLoop envA listing L sA n).1 = (processLoop envB listing L sB n).1 := by
  intro L
  induction L with
  | nil => intro sA sB n _; rfl
  | cons m rest ih =>
    intro sA sB n hkeys
    have hfind : (sA.matchRows.find? (fun e =>
        e.userId == m.userId && e.listingId == m.listingId)).isSome =
        (sB.matchRows.find? (fun e =>
        e.userId == m.userId && e.listingId == m.listingId)).isSome := by
      have hA := find_key_isSome sA.matchRows m.userId m.listingId
      have hB := find_key_isSome sB.matchRows m.userId m.listingId
      rw [hkeys] at hA
      cases hsA : (sA.matchRows.find? (fun e =>
          e.userId == m.userId && e.listingId == m.listingId)).isSome <;>
        cases hsB : (sB.matchRows.find? (fun e =>
          e.userId == m.userId && e.listingId == m.listingId)).isSome
      · rfl
      · rw [hsA] at hA; rw [hsB] at hB
        exact absurd (hA.mpr (hB.mp rfl)) (by simp)
      · rw [hsA] at hA; rw [hsB] at hB
        exact absurd (hB.mpr (hA.mp rfl)) (by simp)
      · rfl
    unfold processLoop
    cases hoA : sA.matchRows.find? (fun e =>
        e.userId == m.userId && e.listingId == m.listingId) with
    | some eA =>
      cases hoB : sB.matchRows.find? (fun e =>
          e.userId == m.userId && e.listingId == m.listingId) with
      | some eB => exact ih sA sB n hkeys
      | none => rw [hoA, hoB] at hfind; cases hfind
    | none =>
      cases hoB : sB.matchRows.find? (fun e =>
          e.userId == m.userId && e.listingId == m.listingId) with
      | some eB => rw [hoA, hoB] at hfind; cases hfind
      | none =>
        by_cases hn : m.shouldNotify = true
        · simp only [hn, if_true]
          refine ih _ _ (n + 1) ?_
          rw [(notifyUser_preserves envA _ _).2.2.2,
            (notifyUser_preserves envB _ _).2.2.2]
          simp only [updateListing, List.map_append, List.map_cons, List.map_nil,
            hkeys, matchKey]
        · simp only [hn, if_false]
          refine ih _ _ n ?_
          simp only [updateListing, List.map_append, List.map_cons, List.map_nil,
            hkeys, matchKey]

/-- C6 (amended): `processMatches` returns the number of newly created
pairings at or above the notify threshold — dispatch attempts, not actual
deliveries: the count is identical under any two delivery environments,
in particular when every delivery fails. -/
theorem c6_amended_count_delivery_independent (envA envB : MatchingEnv)
    (s : MatchingState) (listing : ScrapedListing) :
    (processMatches envA s listing).1 = (processMatches envB s listing).1 := by
  unfold processMatches
  exact processLoop_count_env_indep envA envB listing
    (findMatchesForListing s listing) s s 0 rfl

/-! ## Notification Dispatcher lemmas and C3 -/

theorem sendImagesSeq_all_ok (env : MatchingEnv) (r : String) :
    ∀ (imgs : List String) (s : MatchingState),
      (∀ img ∈ imgs, env.imageOk r img = true) →
      sendImagesSeq env r imgs s =
        ({ s with sentImages := s.sentImages ++ imgs.map (fun i => (r, i)) }, true) := by
  intro imgs
  induction imgs with
  | nil => intro s _; simp [sendImagesSeq]
  | cons img rest ih =>
    intro s h
    have hok := h img (List.mem_cons_self img rest)
    unfold sendImagesSeq
    rw [hok]
    simp only [if_true]
    rw [ih _ (fun i hi => h i (List.mem_cons_of_mem img hi))]
    simp

theorem sendImagesSeq_first_fail (env : MatchingEnv) (r : String) :
    ∀ (pre : List String) (bad : String) (post : List String) (s : MatchingState),
      (∀ img ∈ pre, env.imageOk r img = true) →
      env.imageOk r bad = false →
      sendImagesSeq env r (pre ++ bad :: post) s =
        ({ s with sentImages := s.sentImages ++ pre.map (fun i => (r, i)) }, false) := by
  intro pre
  induction pre with
  | nil =>
    intro bad post s _ hbad
    unfold sendImagesSeq
    rw [List.nil_append] at *
    simp [sendImagesSeq, hbad]
  | cons img rest ih =>
    intro bad post s h hbad
    have hok := h img (List.mem_cons_self img rest)
    unfold sendImagesSeq
    simp only [List.cons_append]
    rw [hok]
    simp only [if_true]
    rw [ih bad post _ (fun i hi => h i (List.mem_cons_of_mem img hi)) hbad]
    simp

/-- C3 (amended): when the match is found, unnotified, and the primary text
delivery succeeds, `notifyUser` sets `isNotified`/`notifiedAt` **iff all
attempted image deliveries (up to 3) also succeed**; a single image failure
aborts the remaining image deliveries and skips the `isNotified` update and
the Notification row (the already-delivered text is not rolled back). -/
theorem c3_amended_notify_delivery (env : MatchingEnv) (s : MatchingState)
    (mid : Nat) (m : MatchRec) (u : UserRec) (l : ScrapedListing)
    (hm : findMatch s mid = some m) (hn : m.isNotified = false)
    (hu : findUserById s m.userId = some u)
    (hl : findListingById s m.listingId = some l)
    (ht : env.textOk u.whatsappNumber = true) :
    ((∀ img ∈ l.images.take 3, env.imageOk u.whatsappNumber img = true) →
      (notifyUser env s mid).matchRows = s.matchRows.map (fun mm =>
        if mm.id == mid then
          { mm with isNotified := true, notifiedAt := some env.now }
        else mm)) ∧
    (∀ (pre : List String) (bad : String) (post : List String),
      l.images.take 3 = pre ++ bad :: post →
      (∀ img ∈ pre, env.imageOk u.whatsappNumber img = true) →
      env.imageOk u.whatsappNumber bad = false →
      (notifyUser env s mid).matchRows = s.matchRows ∧
      (notifyUser env s mid).notifications = s.notifications ∧
      (notifyUser env s mid).sentImages =
        s.sentImages ++ pre.map (fun i => (u.whatsappNumber, i)) ∧
      (notifyUser env s mid).sentTexts = s.sentTexts ++
        [(u.whatsappNumber, env.genMessage l (findCriteriaFor s.criteria u.id))]) := by
  constructor
  · intro himgs
    unfold notifyUser
    rw [hm]
    simp only [hn, Bool.false_eq_true, if_false]
    rw [hu, hl]
    simp only [ht, if_true]
    rw [sendImagesSeq_all_ok env u.whatsappNumber (l.images.take 3) _ himgs]
    simp [updateMatch]
  · intro pre bad post hsplit hpre hbad
    unfold notifyUser
    rw [hm]
    simp only [hn, Bool.false_eq_true, if_false]
    rw [hu, hl]
    simp only [ht, if_true]
    rw [hsplit, sendImagesSeq_first_fail env u.whatsappNumber pre bad post _ hpre hbad]
    exact ⟨rfl, rfl, rfl, rfl⟩

/-- Witness for C3 (amended), success half: with every delivery succeeding,
the fixture match is marked notified. -/
theorem c3_amended_notify_delivery_witness :
    (notifyUser c3EnvOk c3State 0).matchRows = c3State.matchRows.map (fun mm =>
      if mm.id == 0 then
        { mm with isNotified := true, notifiedAt := some c3EnvOk.now }
      else mm) :=
  (c3_amended_notify_delivery c3EnvOk c3State 0 c3Match c6User c3Listing
    (by decide) (by decide) (by decide) (by decide) (by decide)).1 (by decide)

/-! ## Conversation Engine lemmas (for C2, C7, C8) -/

theorem users_sendMessage (env : ConvEnv) (s : ConvState) (r c : String)
    (mu : Option String) : (sendMessage env s r c mu).users = s.users := by
  unfold sendMessage
  split
  · split <;> rfl
  · rfl

theorem contexts_sendMessage (env : ConvEnv) (s : ConvState) (r c : String)
    (mu : Option String) : (sendMessage env s r c mu).contexts = s.contexts := by
  unfold sendMessage
  split
  · split <;> rfl
  · rfl

theorem criteria_sendMessage (env : ConvEnv) (s : ConvState) (r c : String)
    (mu : Option String) : (sendMessage env s r c mu).criteria = s.criteria := by
  unfold sendMessage
  split
  · split <;> rfl
  · rfl

theorem mem_conversations_sendMessage (env : ConvEnv) (s : ConvState)
    (r c : String) (mu : Option String) (t : ConversationTurn)
    (h : t ∈ s.conversations) : t ∈ (sendMessage env s r c mu).conversations := by
  unfold sendMessage
  split
  · split
    · exact List.mem_append_left _ h
    · exact h
  · exact h

theorem conversations_saveCriteria (s : ConvState) (uid : String)
    (d : MessageContext) : (saveCriteria s uid d).conversations = s.conversations := by
  unfold saveCriteria
  split <;> rfl

theorem users_sendCurrentStatus (env : ConvEnv) (s : ConvState) (u : UserRec) :
    (sendCurrentStatus env s u).users = s.users := by
  unfold sendCurrentStatus
  split <;> rw [users_sendMessage]

theorem contexts_sendCurrentStatus (env : ConvEnv) (s : ConvState) (u : UserRec) :
    (sendCurrentStatus env s u).contexts = s.contexts := by
  unfold sendCurrentStatus
  split <;> rw [contexts_sendMessage]

theorem mem_conversations_sendCurrentStatus (env : ConvEnv) (s : ConvState)
    (u : UserRec) (t : ConversationTurn) (h : t ∈ s.conversations) :
    t ∈ (sendCurrentStatus env s u).conversations := by
  unfold sendCurrentStatus
  split <;> exact mem_conversations_sendMessage _ _ _ _ _ _ h

theorem getContext_setContext_self (s : ConvState) (num : String)
    (ctx : MessageContext) : getContext (setContext s num ctx) num = some ctx := by
  simp [getContext, setContext, List.find?]

theorem getContext_sendMessage (env : ConvEnv) (s : ConvState) (r c : String)
    (mu : Option String) (num : String) :
    getContext (sendMessage env s r c mu) num = getContext s num := by
  unfold getContext
  rw [contexts_sendMessage]

theorem mem_conversations_handleIdleState (env : ConvEnv) (s : ConvState)
    (user : UserRec) (msg : String) (t : ConversationTurn)
    (h : t ∈ s.conversations) :
    t ∈ (handleIdleState env s user msg).conversations := by
  unfold handleIdleState
  dsimp only
  split_ifs <;>
    first
      | exact mem_conversations_sendMessage _ _ _ _ _ _ h
      | exact mem_conversations_sendCurrentStatus _ _ _ _ h

theorem mem_conversations_handleActiveState (env : ConvEnv) (s : ConvState)
    (user : UserRec) (msg : String) (t : ConversationTurn)
    (h : t ∈ s.conversations) :
    t ∈ (handleActiveState env s user msg).conversations := by
  unfold handleActiveState
  dsimp only
  split_ifs <;>
    first
      | exact mem_conversations_sendMessage _ _ _ _ _ _ h
      | exact mem_conversations_sendCurrentStatus _ _ _ _ h

theorem mem_conversations_handlePausedState (env : ConvEnv) (s : ConvState)
    (user : UserRec) (msg : String) (t : ConversationTurn)
    (h : t ∈ s.conversations) :
    t ∈ (handlePausedState env s user msg).conversations := by
  unfold handlePausedState
  dsimp only
  split_ifs <;>
    first
      | exact mem_conversations_sendMessage _ _ _ _ _ _ h
      | exact mem_conversations_sendCurrentStatus _ _ _ _ h

theorem mem_conversations_handleConfirmation (env : ConvEnv) (s : ConvState)
    (user : UserRec) (msg : String) (t : ConversationTurn)
    (h : t ∈ s.conversations) :
    t ∈ (handleConfirmation env s user msg).conversations := by
  unfold handleConfirmation
  dsimp only
  split_ifs <;> exact mem_conversations_sendMessage _ _ _ _ _ _ h

theorem mem_conversations_handleCriteriaCollection (env : ConvEnv)
    (s : ConvState) (user : UserRec) (msg : String) (t : ConversationTurn)
    (h : t ∈ s.conversations) :
    t ∈ (handleCriteriaCollection env s user msg).conversations := by
  unfold handleCriteriaCollection
  dsimp only
  split
  · split_ifs <;> exact mem_conversations_sendMessage _ _ _ _ _ _ h
  · split_ifs <;>
      exact mem_conversations_sendMessage _ _ _ _ _ _ h
  · split_ifs <;> exact mem_conversations_sendMessage _ _ _ _ _ _ h
  · split_ifs <;> exact mem_conversations_sendMessage _ _ _ _ _ _ h
  · split_ifs <;>
      (apply mem_conversations_sendMessage
       rw [conversations_saveCriteria]
       exact h)
  · exact h

theorem mem_conversations_dispatchMessage (env : ConvEnv) (s : ConvState)
    (user : UserRec) (msg : String) (t : ConversationTurn)
    (h : t ∈ s.conversations) :
    t ∈ (dispatchMessage env s user msg).conversations := by
  unfold dispatchMessage
  split
  · exact mem_conversations_handleIdleState _ _ _ _ _ h
  · exact mem_conversations_handleCriteriaCollection _ _ _ _ _ h
  · exact mem_conversations_handleConfirmation _ _ _ _ _ h
  · exact mem_conversations_handleActiveState _ _ _ _ _ h
  · exact mem_conversations_handlePausedState _ _ _ _ _ h

/-- C7 (amended): for a sender with an existing User row, the INCOMING
ConversationTurn carrying the message is persisted **before** the
state-machine dispatch runs (the handler is literally the dispatch applied
to a state already containing the turn), and it is still present
afterwards.  The first message of an unknown sender is the exception: it is
never persisted (see the counterexample). -/
theorem c7_amended_incoming_persisted_for_known_user (env : ConvEnv)
    (s : ConvState) (num msg : String) (mid : Option String) (u : UserRec)
    (h : findUserByNumber s num = some u) :
    ∃ s2 : ConvState,
      handleIncomingMessage env s num msg mid = dispatchMessage env s2 u msg ∧
      ({ userId := u.id, direction := Direction.INCOMING, content := msg
         whatsappMessageId := mid, mediaUrl := none } : ConversationTurn) ∈
        s2.conversations ∧
      ({ userId := u.id, direction := Direction.INCOMING, content := msg
         whatsappMessageId := mid, mediaUrl := none } : ConversationTurn) ∈
        (handleIncomingMessage env s num msg mid).conversations := by
  refine ⟨{ (cUpdateUserById s u.id (fun v => { v with lastInteraction := some env.now })) with
      conversations := (cUpdateUserById s u.id
        (fun v => { v with lastInteraction := some env.now })).conversations ++
        [{ userId := u.id, direction := Direction.INCOMING, content := msg
           whatsappMessageId := mid, mediaUrl := none }] }, ?_, ?_, ?_⟩
  · unfold handleIncomingMessage
    rw [h]
  · exact List.mem_append_right _ (List.mem_singleton_self _)
  · unfold handleIncomingMessage
    rw [h]
    exact mem_conversations_dispatchMessage _ _ _ _ _
      (List.mem_append_right _ (List.mem_singleton_self _))

/-- Witness for C7 (amended) on a concrete one-user state. -/
theorem c7_amended_incoming_persisted_witness :
    ∃ s2 : ConvState,
      handleIncomingMessage convEnvT c8State "241000004" "bonjour" none =
        dispatchMessage convEnvT s2
          { id := "u1", whatsappNumber := "241000004"
            conversationState := ConversationState.ACTIVE, isActive := true
            lastInteraction := none } "bonjour" ∧
      ({ userId := "u1", direction := Direction.INCOMING, content := "bonjour"
         whatsappMessageId := none, mediaUrl := none } : ConversationTurn) ∈
        s2.conversations ∧
      ({ userId := "u1", direction := Direction.INCOMING, content := "bonjour"
         whatsappMessageId := none, mediaUrl := none } : ConversationTurn) ∈
        (handleIncomingMessage convEnvT c8State "241000004" "bonjour" none).conversations :=
  c7_amended_incoming_persisted_for_known_user convEnvT c8State "241000004"
    "bonjour" none _ (by decide)

/-- C8 (amended): in `ACTIVE`, only the exact word "modifier" transitions the
user to `COLLECTING_CRITERIA` with a fresh step-1 accumulator; the words
"change" and "critères" (which do work in `IDLE`) fall through to the
default acknowledgment, changing neither the users nor the contexts.  In
`IDLE` all three words do transition. -/
theorem c8_amended_active_commands (env : ConvEnv) (s : ConvState)
    (u : UserRec) (msg : String) :
    (lowerTrim msg = "modifier" →
      (handleActiveState env s u msg).users =
        (cUpdateUserById s u.id (fun v =>
          { v with conversationState := ConversationState.COLLECTING_CRITERIA })).users ∧
      getContext (handleActiveState env s u msg) u.whatsappNumber = some step1Ctx) ∧
    (lowerTrim msg = "change" ∨ lowerTrim msg = "critères" →
      (handleActiveState env s u msg).users = s.users ∧
      (handleActiveState env s u msg).contexts = s.contexts) ∧
    ((lowerTrim msg = "modifier" ∨ lowerTrim msg = "change" ∨
        lowerTrim msg = "critères") →
      (handleIdleState env s u msg).users =
        (cUpdateUserById s u.id (fun v =>
          { v with conversationState := ConversationState.COLLECTING_CRITERIA })).users ∧
      getContext (handleIdleState env s u msg) u.whatsappNumber = some step1Ctx) := by
  refine ⟨?_, ?_, ?_⟩
  · intro hmsg
    unfold handleActiveState
    dsimp only
    rw [hmsg]
    simp only [beq_self_eq_true, if_true]
    constructor
    · rw [users_sendMessage]
      rfl
    · rw [getContext_sendMessage]
      exact getContext_setContext_self _ _ _
  · intro hmsg
    unfold handleActiveState
    dsimp only
    rcases hmsg with hmsg | hmsg <;> rw [hmsg] <;>
      simp only [show (("change" : String) == "modifier") = false from rfl,
        show (("critères" : String) == "modifier") = false from rfl,
        show (("change" : String) == "pause") = false from rfl,
        show (("critères" : String) == "pause") = false from rfl,
        show (("change" : String) == "stop") = false from rfl,
        show (("critères" : String) == "stop") = false from rfl,
        show (("change" : String) == "statut") = false from rfl,
        show (("critères" : String) == "statut") = false from rfl,
        show (("change" : String) == "status") = false from rfl,
        show (("critères" : String) == "status") = false from rfl,
        show (("change" : String) == "aide") = false from rfl,
        show (("critères" : String) == "aide") = false from rfl,
        show (("change" : String) == "help") = false from rfl,
        show (("critères" : String) == "help") = false from rfl,
        Bool.or_self, Bool.false_or, if_false] <;>
      exact ⟨users_sendMessage _ _ _ _ _, contexts_sendMessage _ _ _ _ _⟩
  · intro hmsg
    unfold handleIdleState
    dsimp only
    rcases hmsg with hmsg | hmsg | hmsg <;> rw [hmsg] <;>
      simp only [beq_self_eq_true, Bool.true_or, Bool.or_true, if_true] <;>
      refine ⟨by rw [users_sendMessage]; rfl, ?_⟩ <;>
      rw [getContext_sendMessage] <;>
      exact getContext_setContext_self _ _ _

/-- Witness for C8 (amended): "modifier" transitions the concrete ACTIVE
user; "change" leaves users and contexts untouched. -/
theorem c8_amended_active_commands_witness :
    ((handleActiveState convEnvT c8State c8User "modifier").users =
      (cUpdateUserById c8State c8User.id (fun v =>
        { v with conversationState := ConversationState.COLLECTING_CRITERIA })).users ∧
     getContext (handleActiveState convEnvT c8State c8User "modifier")
       c8User.whatsappNumber = some step1Ctx) ∧
    ((handleActiveState convEnvT c8State c8User "change").users = c8State.users ∧
     (handleActiveState convEnvT c8State c8User "change").contexts =
       c8State.contexts) :=
  ⟨(c8_amended_active_commands convEnvT c8State c8User "modifier").1 (by decide),
   (c8_amended_active_commands convEnvT c8State c8User "change").2.1
     (Or.inl (by decide))⟩

theorem criteria_setContext (s : ConvState) (num : String) (ctx : MessageContext) :
    (setContext s num ctx).criteria = s.criteria := rfl

theorem criteria_deleteContext (s : ConvState) (num : String) :
    (deleteContext s num).criteria = s.criteria := rfl

theorem criteria_cUpdateUserById (s : ConvState) (uid : String)
    (f : UserRec → UserRec) : (cUpdateUserById s uid f).criteria = s.criteria := rfl

/-- `find?` over the per-row update map used by `saveCriteria`: if the row
was found before, the updated row is found after. -/
theorem find?_map_update (uid : String) (g : PropertyCriteria → PropertyCriteria)
    (hg : ∀ c, (g c).userId = uid) :
    ∀ (l : List PropertyCriteria) (old : PropertyCriteria),
      l.find? (fun c => c.userId == uid) = some old →
      (l.map (fun c => if c.userId == uid then g c else c)).find?
        (fun c => c.userId == uid) = some (g old) := by
  intro l
  induction l with
  | nil => intro old h; cases h
  | cons c cs ih =>
    intro old h
    by_cases hc : (c.userId == uid) = true
    · have hco : c = old := by
        simp only [List.find?, hc] at h
        exact Option.some.inj h
      subst hco
      simp only [List.map_cons, hc, if_true]
      have hp : ((g c).userId == uid) = true := by
        rw [hg c]; exact beq_self_eq_true uid
      simp only [List.find?, hp]
    · have hc2 : (c.userId == uid) = false := by
        simpa using hc
      simp only [List.find?, hc2] at h
      simpa [List.find?, hc2] using ih old h

/-- `saveCriteria` on an existing row: Prisma's update with the
`undefined`-skip semantics replaces the row with the merge of the
accumulator over the previous values. -/
theorem findConvCriteria_saveCriteria (s : ConvState) (uid : String)
    (d : MessageContext) (old : PropertyCriteria)
    (h : findConvCriteria s uid = some old) :
    findConvCriteria (saveCriteria s uid d) uid = some
      { userId := uid
        propertyType := d.propertyType.getD PropertyType.BOTH
        minPrice := d.minPrice <|> old.minPrice
        maxPrice := d.maxPrice <|> old.maxPrice
        locations := d.locations.getD []
        minRooms := d.minRooms <|> old.minRooms
        maxRooms := old.maxRooms
        minSurface := d.minSurface <|> old.minSurface
        maxSurface := old.maxSurface } := by
  unfold saveCriteria
  rw [h]
  unfold findConvCriteria at h ⊢
  exact find?_map_update uid _ (fun _ => rfl) s.criteria old h

/-- C2 (amended): completing step 5 persists `propertyType` and `locations`
as full overwrites (with defaults `BOTH` / `[]`), but numeric fields the
user skipped in this pass (`minRooms`, `minSurface` unset in the
accumulator) retain their values from the previously stored criteria — a
field-by-field merge, not a full overwrite. -/
theorem c2_amended_skipped_fields_merge (env : ConvEnv) (s : ConvState)
    (u : UserRec) (msg : String) (ctx : MessageContext) (old : PropertyCriteria)
    (hctx : getContext s u.whatsappNumber = some ctx)
    (hstep : ctx.step = 5)
    (hrooms : ctx.minRooms = none) (hsurf : ctx.minSurface = none)
    (hskip : jsIncludes (lowerTrim msg) "pas" = true)
    (hold : findConvCriteria s u.id = some old) :
    (findConvCriteria (handleCriteriaCollection env s u msg) u.id).map
        (fun c => (c.minRooms, c.minSurface)) =
      some (old.minRooms, old.minSurface) ∧
    (findConvCriteria (handleCriteriaCollection env s u msg) u.id).map
        (fun c => (c.propertyType, c.locations)) =
      some (ctx.propertyType.getD PropertyType.BOTH, ctx.locations.getD []) := by
  have hstate : handleCriteriaCollection env s u msg =
      setContext (deleteContext (cUpdateUserById
        (sendMessage env (saveCriteria s u.id ctx) u.whatsappNumber
          (summaryText ctx) none) u.id
        (fun v => { v with conversationState := ConversationState.CONFIRMING }))
        u.whatsappNumber) u.whatsappNumber ctx := by
    unfold handleCriteriaCollection
    rw [hctx]
    simp only [Option.getD_some, hstep]
    simp only [hskip, Bool.not_true, Bool.false_and]
    rfl
  have hsave := findConvCriteria_saveCriteria s u.id ctx old hold
  have hcrit : findConvCriteria (handleCriteriaCollection env s u msg) u.id =
      findConvCriteria (saveCriteria s u.id ctx) u.id := by
    rw [hstate]
    unfold findConvCriteria
    rw [criteria_setContext, criteria_deleteContext, criteria_cUpdateUserById,
      criteria_sendMessage]
  rw [hcrit, hsave]
  simp [hrooms, hsurf]

/-- Witness for C2 (amended) at the concrete second-pass fixture. -/
theorem c2_amended_skipped_fields_merge_witness :
    (findConvCriteria (handleCriteriaCollection convEnvT c2State c2User
        "pas important") "u0").map (fun c => (c.minRooms, c.minSurface)) =
      some (c2Old.minRooms, c2Old.minSurface) ∧
    (findConvCriteria (handleCriteriaCollection convEnvT c2State c2User
        "pas important") "u0").map (fun c => (c.propertyType, c.locations)) =
      some (c2Ctx.propertyType.getD PropertyType.BOTH, c2Ctx.locations.getD []) :=
  c2_amended_skipped_fields_merge convEnvT c2State c2User "pas important"
    c2Ctx c2Old (by decide) (by decide) (by decide) (by decide) (by decide)
    (by decide)

end ImmoAlert
